import Mathlib

/-!
Shallow embedding of the dropbox-mongodb ingestion core
(`backend/routes/dropbox.py`, `backend/services/dropbox_service.py`,
`backend/services/queue_service.py`, `worker/main.py`).

External collaborators (Dropbox API, Azure Blob Storage, Azure Service Bus,
MongoDB, Azure OpenAI, docling, langchain splitter, tiktoken) are modelled as
explicit parameters carrying the outcome of each external call; the repository
code that consumes those outcomes is translated line by line.  Machine floats
appear only as the download backoff base (`RETRY_DELAY_BASE`); it is modelled
as a rational.  Embedding vectors are opaque payloads to the code and are
modelled as `List Int`.  Timestamps (`datetime.utcnow()`) are modelled as an
abstract `Nat` clock value threaded in from outside.
-/

namespace DropboxMongo

/-- Python truthiness of an optional string (`if x:` on a value obtained from
`dict.get`): `None` and the empty string are falsy. -/
def pyTruthy : Option String → Bool
  | none => false
  | some s => s ≠ ""

/-- Substring occurrence on character lists: `pat` occurs in the list iff it
is a prefix of one of its suffixes. -/
def hasSub (pat : List Char) : List Char → Bool
  | [] => pat.isEmpty
  | c :: cs => pat.isPrefixOf (c :: cs) || hasSub pat cs

/-- Python substring test `pat in s`, over the underlying character lists. -/
def strContainsSub (s pat : String) : Bool :=
  hasSub pat.data s.data

/-- Python `str.split(sep)` for a single-character separator, over the
underlying character list. -/
def splitCharList (sep : Char) : List Char → List (List Char)
  | [] => [[]]
  | c :: cs =>
    match splitCharList sep cs with
    | [] => [[]]
    | g :: gs => if c == sep then [] :: g :: gs else (c :: g) :: gs

/-- Python `str.strip()`: drop whitespace from both ends. -/
def pyStrip (s : String) : String :=
  ⟨((s.data.dropWhile Char.isWhitespace).reverse.dropWhile
      Char.isWhitespace).reverse⟩

/-- ASCII lower-casing of one character (the characters the code lowers are
file extensions). -/
def asciiLower (c : Char) : Char :=
  if 'A' ≤ c && c ≤ 'Z' then Char.ofNat (c.toNat + 32) else c

/-- Python `str.lower()`. -/
def pyLower (s : String) : String :=
  ⟨s.data.map asciiLower⟩

/-- Python `str.startswith(pat)`. -/
def pyStartsWith (s pat : String) : Bool :=
  pat.data.isPrefixOf s.data

/-! ## Data model: the MongoDB documents the core reads and writes -/

/-- One document of the `dropbox_files` collection, restricted to the fields
the core reads or writes (`routes/dropbox.py` lines 147-167, `worker/main.py`
lines 566-686).  `attempts` and `last_error` stand for
`processing_metadata.attempts` / `processing_metadata.last_error`;
`metadata_content_hash` stands for `metadata.content_hash`. -/
structure FileDoc where
  dropbox_path : String
  dropbox_file_id : String
  filename : String
  file_type : String
  blob_url : String
  file_hash : String
  file_size : Nat
  user_id : String
  processing_status : String
  chunk_count : Nat
  created_at : Nat
  updated_at : Nat
  dropbox_modified_at : Option String
  metadata_content_hash : Option String
  markdown_blob_url : Option String
  attempts : Nat
  last_error : Option String
  deriving Repr, DecidableEq

/-- One document of the `dropbox_chunks` collection (`worker/main.py` lines
632-639).  `chunk_type`, `char_count` and `token_count` stand for the nested
`metadata` object written there. -/
structure ChunkDoc where
  file_id : String
  chunk_index : Nat
  content : String
  embedding : List Int
  chunk_type : String
  char_count : Nat
  token_count : Nat
  created_at : Nat
  deriving Repr, DecidableEq

/-- The `dropbox_files` collection, keyed by the string form of `_id`. -/
abbrev FileColl := List (String × FileDoc)

/-- `find_one({"_id": id})`. -/
def findFile : FileColl → String → Option FileDoc
  | [], _ => none
  | p :: c, id => if p.1 = id then some p.2 else findFile c id

/-- `update_one({"_id": id}, {"$set": ...})` applied through a field
transformer; a missing `_id` matches nothing and leaves the collection
unchanged (matched_count = 0). -/
def updateFile (c : FileColl) (id : String) (f : FileDoc → FileDoc) : FileColl :=
  c.map fun p => if p.1 = id then (p.1, f p.2) else p

/-- Worker-side database state: the `dropbox_files` and `dropbox_chunks`
collections. -/
structure WorkerDb where
  files : FileColl
  chunks : List ChunkDoc
  deriving Repr, DecidableEq

/-! ## backend/services/dropbox_service.py -/

/-- `DropboxService.get_file_extension` (dropbox_service.py lines 177-181):
`filename.split(".")[-1].lower()` when a dot is present, else the empty
string. -/
def get_file_extension (filename : String) : String :=
  if filename.data.contains '.' then
    pyLower ⟨(splitCharList '.' filename.data).getLastD []⟩
  else ""

/-- The allow-list of `DropboxService.is_supported_file_type`
(dropbox_service.py lines 183-190). -/
def supported_types : List String :=
  ["pdf", "docx", "doc", "pptx", "ppt",
   "txt", "md", "html", "htm", "rtf",
   "xlsx", "xls", "csv"]

/-- `DropboxService.is_supported_file_type`. -/
def is_supported_file_type (file_type : String) : Bool :=
  supported_types.contains (pyLower file_type)

/-! ## Deduplication decision (`manual_sync`, routes/dropbox.py lines 91-121) -/

/-- Remote listing entry for one file, as produced by
`DropboxService.list_files` (dropbox_service.py lines 107-121).
`server_modified` and `content_hash` are modelled as optional because the
sync code reads them with `dict.get`. -/
structure RemoteMeta where
  id : String
  name : String
  path_display : String
  size : Nat
  server_modified : Option String
  content_hash : Option String
  deriving Repr, DecidableEq

/-- Step 1 of the dedup check (routes/dropbox.py lines 98-107):
`if existing_modified and new_modified: if existing_modified == new_modified`.
Both values must be Python-truthy and equal. -/
def metadata_check (doc : FileDoc) (meta : RemoteMeta) : Bool :=
  pyTruthy doc.dropbox_modified_at && pyTruthy meta.server_modified &&
    doc.dropbox_modified_at == meta.server_modified

/-- Step 2 of the dedup check (routes/dropbox.py lines 109-111):
`dropbox_content_hash = file_metadata.get("content_hash", "")` followed by
`if dropbox_content_hash and existing.get("metadata", {}).get("content_hash")
== dropbox_content_hash`. -/
def hash_check (doc : FileDoc) (meta : RemoteMeta) : Bool :=
  let h := meta.content_hash.getD ""
  h ≠ "" && doc.metadata_content_hash == some h

/-- Outcome of the per-file dedup block of `manual_sync`:
`skipMeta` = metadata-check skip (line 107), `skipHash` = hash-check skip
with a modified-date update (lines 112-119), `proceed` = fall through to the
download / upload / upsert / enqueue path (line 121 onward, also taken when
there is no existing record or `force_reprocess` is set). -/
inductive DedupOutcome where
  | skipMeta
  | skipHash
  | proceed
  deriving Repr, DecidableEq

/-- The dedup decision of `manual_sync` (routes/dropbox.py lines 91-121). -/
def dedupStep (force_reprocess : Bool) (existing : Option FileDoc)
    (meta : RemoteMeta) : DedupOutcome :=
  if force_reprocess then .proceed
  else
    match existing with
    | none => .proceed
    | some doc =>
      if metadata_check doc meta then .skipMeta
      else if hash_check doc meta then .skipHash
      else .proceed

/-- The database write performed on the skip paths of the dedup block:
the hash-match skip updates only `dropbox_modified_at` to the remote value
(routes/dropbox.py lines 114-117); the metadata skip writes nothing. -/
def dedup_skip_update (o : DedupOutcome) (doc : FileDoc) (meta : RemoteMeta) :
    FileDoc :=
  match o with
  | .skipHash => { doc with dropbox_modified_at := meta.server_modified }
  | _ => doc

/-! ## Queue resolution (`DropboxFileWorker.run`, worker/main.py 721-740) -/

/-- How the consumer loop resolves one received message. -/
inductive MsgResolution where
  | complete
  | deadLetter (reason : String) (description : String)
  | abandon
  deriving Repr, DecidableEq

/-- Resolution of one message after `process_dropbox_file` returns
(worker/main.py lines 723-740): success → complete; failure with
`delivery_count >= max_receive_count` → dead-letter with reason
`MaxDeliveryCountExceeded`; failure otherwise → abandon. -/
def resolve_message (max_receive_count : Nat) (success : Bool)
    (delivery_count : Nat) : MsgResolution :=
  if success then .complete
  else if delivery_count ≥ max_receive_count then
    .deadLetter "MaxDeliveryCountExceeded"
      ("Message failed processing after " ++ toString delivery_count ++ " attempts")
  else .abandon

/-! ## Download retry loop (`download_file_with_retry`, worker/main.py 371-390) -/

/-- One pass of `for attempt in range(max_retries)` with `rem` iterations
left (`rem` enters as `max_retries`).  `succ n` is the outcome of the n-th
`_download_file` call (an external effect).  Returns the overall result, the
list of backoff delays slept (`retry_delay_base ** attempt`, worker/main.py
line 382), and the number of download attempts made. -/
def downloadRetryGo (base : ℚ) (max_retries : Nat) (succ : Nat → Bool) :
    Nat → Nat → Bool × List ℚ × Nat
  | _, 0 => (false, [], 0)
  | attempt, rem + 1 =>
    if succ attempt then (true, [], 1)
    else if attempt < max_retries - 1 then
      let r := downloadRetryGo base max_retries succ (attempt + 1) rem
      (r.1, base ^ attempt :: r.2.1, r.2.2 + 1)
    else (false, [], 1)

/-- `DropboxFileWorker.download_file_with_retry` (worker/main.py 371-390):
the loop over `range(max_retries)` starting at attempt 0. -/
def download_file_with_retry (base : ℚ) (max_retries : Nat)
    (succ : Nat → Bool) : Bool × List ℚ × Nat :=
  downloadRetryGo base max_retries succ 0 max_retries

/-! ## Chunking (`DoclingProcessor.chunk_markdown`, worker/main.py 203-268) -/

/-- One element of the list returned by `chunk_markdown` (worker/main.py
lines 251-259). -/
structure Chunk where
  chunk_index : Nat
  content : String
  chunk_type : String
  char_count : Nat
  token_count : Nat
  deriving Repr, DecidableEq

/-- The chunk-type classification of `chunk_markdown` (worker/main.py lines
240-247): a table needs both `|` and `---` as substrings, a list starts with
`- ` or `* `, a heading starts with `#`, anything else is text. -/
def classify_chunk (t : String) : String :=
  if strContainsSub t "|" && strContainsSub t "---" then "table"
  else if pyStartsWith t "- " || pyStartsWith t "* " then "list"
  else if pyStartsWith t "#" then "heading"
  else "text"

/-- The fallback token estimate of `DoclingProcessor.count_tokens`
(worker/main.py line 201), used when tiktoken is unavailable:
`len(text) // 4`. -/
def count_tokens_fallback (text : String) : Nat :=
  text.length / 4

/-- The loop body of `chunk_markdown` (worker/main.py 235-260) for one
`enumerate` pair: strip, drop if empty, otherwise build the chunk dict
keeping the `enumerate` index. -/
def chunk_of_piece (tok : String → Nat) (it : Nat × String) : Option Chunk :=
  let t := pyStrip it.2
  if t = "" then none
  else some
    { chunk_index := it.1
      content := t
      chunk_type := classify_chunk t
      char_count := t.length
      token_count := tok t }

/-- `DoclingProcessor.chunk_markdown` (worker/main.py 203-268).  The langchain
`RecursiveCharacterTextSplitter` is external; `splitResult` is the outcome of
its `split_text` call (`.error` when the splitter raises).  `tok` is
`count_tokens` (tiktoken with the `len // 4` fallback).  Pieces are indexed by
`enumerate` over the splitter output and pieces that are empty after `strip`
are dropped, keeping their `enumerate` index for the survivors; any exception
in the `try` block yields the empty list (lines 265-268). -/
def chunk_markdown (tok : String → Nat)
    (splitResult : Except Unit (List String)) : List Chunk :=
  match splitResult with
  | .error _ => []
  | .ok chunks_text =>
    chunks_text.enum.filterMap (chunk_of_piece tok)

/-! ## Embeddings (`DoclingProcessor.generate_embeddings`, worker/main.py 270-310) -/

/-- `DoclingProcessor.generate_embeddings`.  `embedResp` is the outcome of
the external batch call `openai_client.embeddings.create` (`.ok data` is
`response.data` as a list of vectors, `.error` a raised exception).  Without a
client, on an exception, or for an empty input the chunks are returned
unchanged, i.e. with no embedding attached; on success chunk `i` receives
`data[i]` when `i < len(data)` (worker/main.py lines 280-310, where the guard
`idx < len(chunks)` discards surplus response entries). -/
def generate_embeddings (hasClient : Bool)
    (embedResp : Except Unit (List (List Int))) (chunks : List Chunk) :
    List (Chunk × Option (List Int)) :=
  if !hasClient then chunks.map fun c => (c, none)
  else if chunks.isEmpty then chunks.map fun c => (c, none)
  else
    match embedResp with
    | .error _ => chunks.map fun c => (c, none)
    | .ok data => chunks.enum.map fun ic => (ic.2, data.get? ic.1)

/-! ## Per-file processing (`process_dropbox_file`, worker/main.py 509-690) -/

/-- The fields `process_dropbox_file` reads from the decoded message JSON with
`dict.get` (worker/main.py lines 554-558). -/
structure MsgData where
  file_id : Option String
  blob_url : Option String
  filename : Option String
  file_type : Option String
  dropbox_path : Option String
  deriving Repr, DecidableEq

/-- The required-field validation
`if not all([file_id, blob_url, filename, file_type])` (worker/main.py line
560): each must be present and nonempty under Python truthiness. -/
def msgFieldsValid (m : MsgData) : Bool :=
  pyTruthy m.file_id && pyTruthy m.blob_url &&
    pyTruthy m.filename && pyTruthy m.file_type

/-- Outcomes of every external call `process_dropbox_file` makes, threaded in
as data.  Exception payloads model `str(e)` of the raised exception.
`parseResult` covers body decoding plus `json.loads` (worker/main.py 528-552);
`statusUpdateError` the `update_one` marking the record processing (567-584);
`downloadSucceeds` the result of `download_file_with_retry` (592);
`converted` the result of `convert_to_markdown` (`None` on failure, 596);
`markdownUrl` the result of `upload_markdown_to_blob` (`None` on failure, 601);
`splitResult` the langchain `split_text` call (231); `hasOpenAIClient` and
`embedResp` the embedding service (294); `insertError` the `insert_many`
(644); `completeUpdateError` the completion `update_one` (609 or 648);
`failedUpdateError` the failed-status `update_one` in the outer handler
(677, itself wrapped in try/except-pass); `now` the `datetime.utcnow()`
clock. -/
structure WorkerEnv where
  parseResult : Except String MsgData
  statusUpdateError : Option String
  downloadSucceeds : Bool
  converted : Option String
  markdownUrl : Option String
  splitResult : Except Unit (List String)
  hasOpenAIClient : Bool
  embedResp : Except Unit (List (List Int))
  insertError : Option String
  completeUpdateError : Option String
  failedUpdateError : Bool
  now : Nat

/-- The `$set` of the dispatch update (worker/main.py 568-576): only
`processing_status` and `updated_at`. -/
def markProcessing (now : Nat) (d : FileDoc) : FileDoc :=
  { d with processing_status := "processing", updated_at := now }

/-- The `$set` of the failure handler (worker/main.py 677-686): status
failed, `processing_metadata.last_error`, `updated_at`. -/
def markFailed (err : String) (now : Nat) (d : FileDoc) : FileDoc :=
  { d with processing_status := "failed", last_error := some err,
           updated_at := now }

/-- The `$set` of the completion updates (worker/main.py 609-619 for the
zero-chunk branch with `chunk_count = 0`, 648-658 otherwise): status
completed, `markdown_blob_url`, `chunk_count`, `updated_at`. -/
def markCompleted (mdUrl : String) (n : Nat) (now : Nat) (d : FileDoc) :
    FileDoc :=
  { d with processing_status := "completed",
           markdown_blob_url := some mdUrl, chunk_count := n,
           updated_at := now }

/-- One `doc_chunk` dict built for insertion (worker/main.py 632-639). -/
def mkChunkDoc (fid : String) (now : Nat) (c : Chunk) (e : List Int) :
    ChunkDoc :=
  { file_id := fid, chunk_index := c.chunk_index, content := c.content,
    embedding := e, chunk_type := c.chunk_type, char_count := c.char_count,
    token_count := c.token_count, created_at := now }

/-- The `document_chunks` list (worker/main.py 626-640): chunks whose
embedding is missing are skipped, the rest become `ChunkDoc`s. -/
def document_chunks (fid : String) (now : Nat)
    (ec : List (Chunk × Option (List Int))) : List ChunkDoc :=
  ec.filterMap fun ce => ce.2.map fun e => mkChunkDoc fid now ce.1 e

/-- The outer exception handler of `process_dropbox_file` (worker/main.py
670-690): writes status failed with `last_error` on the record (a missing
record matches nothing), unless that write itself raises, then returns
failure.  Every exception reaching it escapes from code where `file_id` is a
bound local. -/
def failPath (env : WorkerEnv) (db : WorkerDb) (fid : String) (err : String) :
    Bool × WorkerDb :=
  if env.failedUpdateError then (false, db)
  else (false, { db with files := updateFile db.files fid (markFailed err env.now) })

/-- `DropboxFileWorker.process_dropbox_file` (worker/main.py 509-690) as a
function of the external-call outcomes `env` and the database state.  Returns
the boolean the method returns together with the database state it leaves
behind.  Paths returning `(false, ...)` with the database untouched are the
early `return False` statements (parse failure 552, invalid message 562,
dispatch-update exception 584, record not found 579); all later failures
raise and run through `failPath`.  `insert_many` and `update_one` are
modelled as atomic: on an exception they leave the collection unchanged. -/
def process_dropbox_file (tok : String → Nat) (env : WorkerEnv)
    (db : WorkerDb) : Bool × WorkerDb :=
  match env.parseResult with
  | .error _ => (false, db)
  | .ok m =>
    if !msgFieldsValid m then (false, db)
    else
      let fid := m.file_id.getD ""
      match env.statusUpdateError with
      | some _ => (false, db)
      | none =>
        match findFile db.files fid with
        | none => (false, db)
        | some _ =>
          let db1 : WorkerDb :=
            { db with files := updateFile db.files fid (markProcessing env.now) }
          if !env.downloadSucceeds then
            failPath env db1 fid "Failed to download file after retries"
          else
            match env.converted with
            | none => failPath env db1 fid "Failed to convert to markdown"
            | some _ =>
              match env.markdownUrl with
              | none => failPath env db1 fid "Failed to upload markdown to blob storage"
              | some mdUrl =>
                let chunks := chunk_markdown tok env.splitResult
                if chunks.isEmpty then
                  match env.completeUpdateError with
                  | some e => failPath env db1 fid e
                  | none =>
                    (true, { db1 with
                      files := updateFile db1.files fid (markCompleted mdUrl 0 env.now) })
                else
                  let ec := generate_embeddings env.hasOpenAIClient env.embedResp chunks
                  let dc := document_chunks fid env.now ec
                  match (if dc.isEmpty then none else env.insertError) with
                  | some e => failPath env db1 fid e
                  | none =>
                    let db2 : WorkerDb :=
                      if dc.isEmpty then db1
                      else { db1 with chunks := db1.chunks ++ dc }
                    match env.completeUpdateError with
                    | some e => failPath env db2 fid e
                    | none =>
                      (true, { db2 with
                        files := updateFile db2.files fid (markCompleted mdUrl dc.length env.now) })

/-! ## Sync orchestrator (`manual_sync`, routes/dropbox.py 55-213) -/

/-- The body of one queued work message as built by
`QueueService.send_dropbox_processing_message`
(queue_service.py lines 77-87). -/
structure WorkMsg where
  message_type : String
  file_id : String
  dropbox_path : String
  dropbox_file_id : String
  blob_url : String
  filename : String
  file_type : String
  user_id : String
  timestamp : Nat
  deriving Repr, DecidableEq

/-- Outcomes of the external calls made for one candidate file inside the
`manual_sync` loop: `downloadResult` is `dropbox_service.download_file`
(raw bytes modelled as `List Nat`, or a raised exception), `sha` the external
SHA-256 digest (`hashlib.sha256(...).hexdigest()`), `uploadOk` the blob
upload (routes/dropbox.py 138-141), `enqueueOk` the result of
`send_dropbox_processing_message` (which catches its own exceptions and
returns a bool), `blobUrlOf` the SDK's `blob_client.url` for a blob name,
`newId` the `_id` MongoDB mints on an upserting insert, and `now` the
`datetime.utcnow()` clock. -/
structure SyncExt where
  downloadResult : Except String (List Nat)
  sha : List Nat → String
  uploadOk : Bool
  blobUrlOf : String → String
  enqueueOk : Bool
  newId : String
  now : Nat

/-- The string-valued local variables of `manual_sync` that are in scope when
the `file_record` dict literal at routes/dropbox.py lines 147-167 is
evaluated.  The content digest is bound under the name `sha256_hash`
(line 127); no local named `file_hash` is ever assigned in the function, and
the module defines no such global. -/
def manual_sync_locals (file_type sha256_hash container_name blob_name
    blob_url : String) : List (String × String) :=
  [("file_type", file_type), ("sha256_hash", sha256_hash),
   ("container_name", container_name), ("blob_name", blob_name),
   ("blob_url", blob_url)]

/-- Evaluation of the `file_record` dict literal (routes/dropbox.py 147-167).
Every value except one is a bound name or an attribute access; the value at
line 165, `"content_hash": file_hash`, is a name lookup that fails
(`NameError`) because only `sha256_hash` is bound.  The lookup is modelled
against the function's local environment. -/
def buildFileRecord (locals : List (String × String)) (meta : RemoteMeta)
    (file_type sha256_hash blob_url : String) (now : Nat) :
    Except String FileDoc :=
  match locals.lookup "file_hash" with
  | none => .error "NameError: name file_hash is not defined"
  | some v =>
    .ok { dropbox_path := meta.path_display
          dropbox_file_id := meta.id
          filename := meta.name
          file_type := file_type
          blob_url := blob_url
          file_hash := sha256_hash
          file_size := meta.size
          user_id := "system"
          processing_status := "pending"
          chunk_count := 0
          created_at := now
          updated_at := now
          dropbox_modified_at := meta.server_modified
          metadata_content_hash := some v
          markdown_blob_url := none
          attempts := 0
          last_error := none }

/-- `find_one({"dropbox_file_id": ...})` (routes/dropbox.py 93-95), returning
the `_id` key together with the document. -/
def findByDropboxId (c : FileColl) (dbxId : String) : Option (String × FileDoc) :=
  c.find? fun p => p.2.dropbox_file_id == dbxId

/-- The `$set` payload of the sync upsert applied to an existing document
(routes/dropbox.py 170-174): all fields of the `file_record` dict overwrite
the stored ones; `processing_metadata` is not in the dict, so `attempts` and
`last_error` are preserved. -/
def applySyncSet (rec : FileDoc) (d : FileDoc) : FileDoc :=
  { rec with attempts := d.attempts, last_error := d.last_error }

/-- Outcome of the `manual_sync` loop body for one candidate: which counter
it bumps (routes/dropbox.py 88-206). -/
inductive SyncFileOutcome where
  | queued
  | skipped
  deriving Repr, DecidableEq

/-- The `manual_sync` loop body for one candidate file (routes/dropbox.py
82-206): supported-type filter, dedup decision, download, digest, blob
upload at `dropbox/{sha256_hash}/{name}`, `file_record` construction, upsert
keyed by `dropbox_file_id`, and enqueue.  Any exception in the body is caught
by the per-file handler (203-206), which counts the file as skipped and
leaves the loop running.  Returns the outcome, the updated collection and
the messages sent. -/
def syncProcessFile (force_reprocess : Bool) (files : FileColl)
    (meta : RemoteMeta) (ext : SyncExt) :
    SyncFileOutcome × FileColl × List WorkMsg :=
  let file_type := get_file_extension meta.name
  if !is_supported_file_type file_type then (.skipped, files, [])
  else
    let existing := findByDropboxId files meta.id
    match dedupStep force_reprocess (existing.map (·.2)) meta with
    | .skipMeta => (.skipped, files, [])
    | .skipHash =>
      match existing with
      | some (oid, _) =>
        (.skipped, updateFile files oid
          (fun d => { d with dropbox_modified_at := meta.server_modified }), [])
      | none => (.skipped, files, [])
    | .proceed =>
      match ext.downloadResult with
      | .error _ => (.skipped, files, [])
      | .ok content =>
        let sha256_hash := ext.sha content
        if !ext.uploadOk then (.skipped, files, [])
        else
          let blob_name := "dropbox/" ++ sha256_hash ++ "/" ++ meta.name
          let blob_url := ext.blobUrlOf blob_name
          match buildFileRecord
              (manual_sync_locals file_type sha256_hash "dropbox" blob_name blob_url)
              meta file_type sha256_hash blob_url ext.now with
          | .error _ => (.skipped, files, [])
          | .ok rec =>
            let (fid, files1) :=
              match findByDropboxId files meta.id with
              | some (oid, _) => (oid, updateFile files oid (applySyncSet rec))
              | none => (ext.newId, files ++ [(ext.newId, rec)])
            if ext.enqueueOk then
              (.queued, files1,
               [{ message_type := "dropbox_file", file_id := fid,
                  dropbox_path := meta.path_display,
                  dropbox_file_id := meta.id, blob_url := blob_url,
                  filename := meta.name, file_type := file_type,
                  user_id := "system", timestamp := ext.now }])
            else (.skipped, files1, [])

/-- The chunk set a run retains for persistence: the `document_chunks` built
from the embedding pass over the chunked markdown, exactly as computed inside
`process_dropbox_file` (worker/main.py 606-640). -/
def retained_chunks (tok : String → Nat) (env : WorkerEnv) (fid : String) :
    List ChunkDoc :=
  document_chunks fid env.now
    (generate_embeddings env.hasOpenAIClient env.embedResp
      (chunk_markdown tok env.splitResult))

/-! ## Concrete scenario data used by witnesses and counterexamples -/

/-- A previously unseen 10 KB PDF at `/docs/a.pdf` as listed by the remote
store. -/
def exMeta : RemoteMeta :=
  { id := "id:abc123", name := "a.pdf", path_display := "/docs/a.pdf",
    size := 10240, server_modified := some "2024-01-01T00:00:00Z",
    content_hash := some "cafe01" }

/-- The same file listed again with a changed modification date but identical
remote content hash. -/
def exMetaB : RemoteMeta :=
  { exMeta with server_modified := some "2024-02-02T00:00:00Z" }

/-- The same file listed with a changed modification date and a different
remote content hash. -/
def exMetaC : RemoteMeta :=
  { exMeta with server_modified := some "2024-02-02T00:00:00Z",
                content_hash := some "beef99" }

/-- External-call outcomes for one sync candidate where every external call
succeeds. -/
def exSyncExt : SyncExt :=
  { downloadResult := .ok [1, 2, 3], sha := fun _ => "deadbeef",
    uploadOk := true, blobUrlOf := fun b => "https://acc.example/" ++ b,
    enqueueOk := true, newId := "64b0", now := 7 }

/-- A stored FileRecord for the file of `exMeta`, in state pending. -/
def exDoc : FileDoc :=
  { dropbox_path := "/docs/a.pdf", dropbox_file_id := "id:abc123",
    filename := "a.pdf", file_type := "pdf",
    blob_url := "https://acc.example/dropbox/deadbeef/a.pdf",
    file_hash := "deadbeef", file_size := 10240, user_id := "system",
    processing_status := "pending", chunk_count := 0,
    created_at := 1, updated_at := 1,
    dropbox_modified_at := some "2024-01-01T00:00:00Z",
    metadata_content_hash := some "cafe01",
    markdown_blob_url := none, attempts := 0, last_error := none }

/-- The decoded work message for `exDoc`. -/
def exMsg : MsgData :=
  { file_id := some "64b0",
    blob_url := some "https://acc.example/dropbox/deadbeef/a.pdf",
    filename := some "a.pdf", file_type := some "pdf",
    dropbox_path := some "/docs/a.pdf" }

/-- Worker-side database holding only `exDoc`. -/
def exDb : WorkerDb := { files := [("64b0", exDoc)], chunks := [] }

/-- External-call outcomes for one worker run where every external call
succeeds; the splitter returns three pieces of which the middle one is blank,
and the embedding service returns one vector per retained chunk. -/
def envOk : WorkerEnv :=
  { parseResult := .ok exMsg, statusUpdateError := none,
    downloadSucceeds := true, converted := some "# Title\n\nalpha text",
    markdownUrl := some "markdown/64b0.md",
    splitResult := .ok ["alpha text", "   ", "beta text"],
    hasOpenAIClient := true, embedResp := .ok [[1], [2]],
    insertError := none, completeUpdateError := none,
    failedUpdateError := false, now := 9 }

/-- The run of `envOk` with the text splitter raising an exception. -/
def envC10 : WorkerEnv := { envOk with splitResult := .error () }

/-- The run of `envOk` with `insert_many` raising a database error. -/
def envC3 : WorkerEnv := { envOk with insertError := some "db down" }

/-- The run of `envOk` with the whole batch embedding call failing. -/
def envC4 : WorkerEnv := { envOk with embedResp := .error () }

/-- The message of `exMsg` without its required `blob_url` field. -/
def msgNoBlob : MsgData := { exMsg with blob_url := none }

/-- The run of `envOk` on a message missing a required field. -/
def envC7 : WorkerEnv := { envOk with parseResult := .ok msgNoBlob }

/-- The run of `envOk` with an unparseable message body. -/
def envParseErr : WorkerEnv :=
  { envOk with parseResult := .error "Expecting value" }

/-- The run of `envOk` with the download failing after all retries. -/
def envDlFail : WorkerEnv := { envOk with downloadSucceeds := false }

/-- The run of `envOk` with the dispatch update raising a database error. -/
def envStatusErr : WorkerEnv :=
  { envOk with statusUpdateError := some "connection reset" }

/-- The message of `exMsg` referencing a FileRecord id that is not stored. -/
def msgOther : MsgData := { exMsg with file_id := some "9999" }

/-- The run of `envOk` on a message whose FileRecord does not exist. -/
def envNotFound : WorkerEnv := { envOk with parseResult := .ok msgOther }

/-- The run of `envOk` with the markdown conversion failing. -/
def envConvFail : WorkerEnv := { envOk with converted := none }

/-- The run of `envOk` with the markdown blob upload failing. -/
def envUpFail : WorkerEnv := { envOk with markdownUrl := none }

/-- The run of `envOk` with the completion update raising a database
error. -/
def envCeFail : WorkerEnv :=
  { envOk with completeUpdateError := some "write concern error" }

/-- The run of `envOk` producing no chunks, with the zero-chunk completion
update raising a database error. -/
def envEmptyCeFail : WorkerEnv :=
  { envOk with splitResult := .ok [],
               completeUpdateError := some "write concern error" }

/-! ## Helper lemmas -/

theorem findFile_updateFile (c : FileColl) (id : String) (f : FileDoc → FileDoc) :
    findFile (updateFile c id f) id = (findFile c id).map f := by
  induction c with
  | nil => rfl
  | cons p c ih =>
    obtain ⟨k, v⟩ := p
    by_cases h : k = id
    · subst h
      simp [findFile, updateFile]
    · simpa [findFile, updateFile, h] using ih

/-! ## Claim theorems -/

/-- Claim C1: the spec says a single sync run over a previously unseen
supported file creates one pending FileRecord, enqueues one WorkMessage and
returns queued = 1, skipped = 0.  The code cannot do this: the
`file_record` dict literal at routes/dropbox.py line 165 reads the undefined
name `file_hash` (the digest is bound as `sha256_hash`), so record
construction raises `NameError`, the per-file handler counts the file as
skipped, and no record or message is produced.  This theorem evaluates the
embedded loop body at a fresh 10 KB PDF: the outcome is skipped with the
collection and message list left empty, and the record constructor is shown
to fail with the NameError. -/
theorem sync_new_file_name_error :
    syncProcessFile false [] exMeta exSyncExt = (.skipped, [], []) ∧
    buildFileRecord
      (manual_sync_locals "pdf" "deadbeef" "dropbox"
        "dropbox/deadbeef/a.pdf" "https://acc.example/dropbox/deadbeef/a.pdf")
      exMeta "pdf" "deadbeef" "https://acc.example/dropbox/deadbeef/a.pdf" 7
      = .error "NameError: name file_hash is not defined" := by
  exact ⟨by decide, rfl⟩

/-- Claim C5: a failed message whose delivery count has reached
`MAX_RECEIVE_COUNT` is dead-lettered with reason `MaxDeliveryCountExceeded`
and a human-readable description, a failed message below the ceiling is
abandoned; since Azure sets `delivery_count = k` on the k-th delivery, a
message failing every delivery is abandoned on deliveries `1 .. MAX-1` and
dead-lettered exactly on delivery `MAX`. -/
theorem resolve_message_retry_ceiling (maxRC : Nat) :
    (∀ j, j < maxRC → resolve_message maxRC false j = .abandon) ∧
    resolve_message maxRC false maxRC =
      .deadLetter "MaxDeliveryCountExceeded"
        ("Message failed processing after " ++ toString maxRC ++ " attempts") ∧
    (∀ j, maxRC ≤ j →
      resolve_message maxRC false j =
        .deadLetter "MaxDeliveryCountExceeded"
          ("Message failed processing after " ++ toString j ++ " attempts")) := by
  refine ⟨fun j hj => ?_, ?_, fun j hj => ?_⟩
  · simp [resolve_message, Nat.not_le.mpr hj]
  · simp [resolve_message]
  · simp [resolve_message, hj]

/-- Witness for C5 at `MAX_RECEIVE_COUNT = 3`: abandoned on the first two
failures, dead-lettered on the third. -/
theorem resolve_message_retry_ceiling_witness :
    resolve_message 3 false 1 = .abandon ∧
    resolve_message 3 false 2 = .abandon ∧
    resolve_message 3 false 3 =
      .deadLetter "MaxDeliveryCountExceeded"
        "Message failed processing after 3 attempts" :=
  ⟨(resolve_message_retry_ceiling 3).1 1 (by decide),
   (resolve_message_retry_ceiling 3).1 2 (by decide),
   (resolve_message_retry_ceiling 3).2.1⟩

/-- Claim C6: with an existing record and `force_reprocess` false, the dedup
decision is: equal stored/remote modification timestamps (both present) →
skip with no write; otherwise equal remote and stored content hashes → skip
updating only `dropbox_modified_at`; otherwise reprocess (the download path
is taken). -/
theorem dedup_decision_correct (doc : FileDoc) (meta : RemoteMeta) :
    (∀ t, t ≠ "" → doc.dropbox_modified_at = some t →
      meta.server_modified = some t →
      dedupStep false (some doc) meta = .skipMeta ∧
      dedup_skip_update .skipMeta doc meta = doc) ∧
    (∀ h, h ≠ "" → metadata_check doc meta = false →
      meta.content_hash = some h → doc.metadata_content_hash = some h →
      dedupStep false (some doc) meta = .skipHash ∧
      dedup_skip_update .skipHash doc meta =
        { doc with dropbox_modified_at := meta.server_modified }) ∧
    (metadata_check doc meta = false → hash_check doc meta = false →
      dedupStep false (some doc) meta = .proceed) := by
  refine ⟨fun t ht h1 h2 => ⟨?_, rfl⟩, fun h hne hm h1 h2 => ⟨?_, rfl⟩,
    fun h1 h2 => ?_⟩
  · simp [dedupStep, metadata_check, pyTruthy, h1, h2, ht]
  · simp [dedupStep, hm, hash_check, h1, h2, hne]
  · simp [dedupStep, h1, h2]

/-- Witness for C6: for the stored record of `/docs/a.pdf`, an unchanged
listing skips via the metadata check; a listing with a new modification date
but the same content hash skips and updates only `dropbox_modified_at`; a
listing with a new date and a new hash proceeds to reprocessing. -/
theorem dedup_decision_correct_witness :
    dedupStep false (some exDoc) exMeta = .skipMeta ∧
    dedupStep false (some exDoc) exMetaB = .skipHash ∧
    dedup_skip_update .skipHash exDoc exMetaB =
      { exDoc with dropbox_modified_at := exMetaB.server_modified } ∧
    dedupStep false (some exDoc) exMetaC = .proceed :=
  ⟨((dedup_decision_correct exDoc exMeta).1 "2024-01-01T00:00:00Z"
      (by decide) rfl rfl).1,
   ((dedup_decision_correct exDoc exMetaB).2.1 "cafe01"
      (by decide) (by decide) rfl rfl).1,
   ((dedup_decision_correct exDoc exMetaB).2.1 "cafe01"
      (by decide) (by decide) rfl rfl).2,
   (dedup_decision_correct exDoc exMetaC).2.2 (by decide) (by decide)⟩

/-- Claim C8 (counterexample): the claim says entering processing increments
`processingMetadata.attempts`.  The dispatch update (worker/main.py 568-576)
sets only `processing_status` and `updated_at`: on the stored record with
`attempts = 0` the transition to processing leaves `attempts` at 0, not 1. -/
theorem attempts_counterexample :
    (markProcessing 9 exDoc).processing_status = "processing" ∧
    (markProcessing 9 exDoc).attempts = 0 ∧
    exDoc.attempts = 0 ∧
    ((markProcessing 9 exDoc).attempts == exDoc.attempts + 1) = false := by
  decide

/-- Claim C8 (amended): the worker never modifies
`processingMetadata.attempts`: the dispatch update sets exactly
`processing_status` and `updated_at`, and every database write the worker
performs on a FileRecord (dispatch, failure, completion) preserves
`attempts`. -/
theorem attempts_never_incremented (d : FileDoc) (now n : Nat)
    (e mdUrl : String) :
    markProcessing now d =
      { d with processing_status := "processing", updated_at := now } ∧
    (markProcessing now d).attempts = d.attempts ∧
    (markFailed e now d).attempts = d.attempts ∧
    (markCompleted mdUrl n now d).attempts = d.attempts :=
  ⟨rfl, rfl, rfl, rfl⟩

/-- Invariant of the retry loop: starting at `attempt` with `rem` iterations
budgeted, the delays slept are `base ^ attempt, base ^ (attempt+1), ...` in
order, and at most `rem` download attempts are made. -/
theorem downloadRetryGo_spec (base : ℚ) (maxR : Nat) (succ : Nat → Bool) :
    ∀ rem attempt,
      (downloadRetryGo base maxR succ attempt rem).2.1 =
        (List.range' attempt
          (downloadRetryGo base maxR succ attempt rem).2.1.length).map (base ^ ·) ∧
      (downloadRetryGo base maxR succ attempt rem).2.2 ≤ rem := by
  intro rem
  induction rem with
  | zero => intro attempt; exact ⟨rfl, Nat.le_refl 0⟩
  | succ rem ih =>
    intro attempt
    by_cases hs : succ attempt
    · simp [downloadRetryGo, hs]
    · by_cases hlt : attempt < maxR - 1
      · obtain ⟨h1, h2⟩ := ih (attempt + 1)
        refine ⟨?_, ?_⟩
        · simpa [downloadRetryGo, hs, hlt, List.range'_succ] using h1
        · simpa [downloadRetryGo, hs, hlt] using Nat.succ_le_succ h2
      · simp [downloadRetryGo, hs, hlt]

/-- Claim C9: in `download_file_with_retry`, the delay slept after failed
attempt `n` (0-based, as in `for attempt in range(max_retries)`) is
`RETRY_DELAY_BASE ^ n`; when the base is at least 1 the delays are
non-decreasing; and the number of download attempts never exceeds
`MAX_RETRIES`. -/
theorem download_backoff (base : ℚ) (maxR : Nat) (succ : Nat → Bool)
    (hb : 1 ≤ base) :
    ((download_file_with_retry base maxR succ).2.1 =
      (List.range
        (download_file_with_retry base maxR succ).2.1.length).map (base ^ ·)) ∧
    (download_file_with_retry base maxR succ).2.1.Pairwise (· ≤ ·) ∧
    (download_file_with_retry base maxR succ).2.2 ≤ maxR := by
  obtain ⟨h1, h2⟩ := downloadRetryGo_spec base maxR succ maxR 0
  refine ⟨by simpa [download_file_with_retry, List.range_eq_range'] using h1,
    ?_, h2⟩
  rw [show (download_file_with_retry base maxR succ).2.1 =
      (List.range
        (download_file_with_retry base maxR succ).2.1.length).map (base ^ ·) by
    simpa [download_file_with_retry, List.range_eq_range'] using h1]
  exact (List.pairwise_lt_range _).map _
    (fun a b h => pow_le_pow_right₀ hb h.le)

/-- Witness for C9 with base 2 and three attempts, all failing: the loop
sleeps `[1, 2]` and makes exactly three attempts. -/
theorem download_backoff_witness :
    (1 : ℚ) ≤ 2 ∧
    (((download_file_with_retry 2 3 (fun _ => false)).2.1 =
      (List.range
        (download_file_with_retry 2 3 (fun _ => false)).2.1.length).map
          ((2 : ℚ) ^ ·)) ∧
    (download_file_with_retry 2 3 (fun _ => false)).2.1.Pairwise (· ≤ ·) ∧
    (download_file_with_retry 2 3 (fun _ => false)).2.2 ≤ 3) :=
  ⟨by norm_num, download_backoff 2 3 (fun _ => false) (by norm_num)⟩

/-- Claim C10: when the splitter raises, `chunk_markdown` returns the empty
list (worker/main.py 265-268) and `process_dropbox_file` treats it exactly
like a genuinely empty document: the record is marked completed with
`chunk_count = 0` and the method returns success (worker/main.py 607-620). -/
theorem split_exception_completes_empty
    (tok : String → Nat) (env : WorkerEnv) (db : WorkerDb) (m : MsgData)
    (doc : FileDoc) (md mdUrl : String)
    (hp : env.parseResult = .ok m) (hv : msgFieldsValid m = true)
    (hs : env.statusUpdateError = none)
    (hf : findFile db.files (m.file_id.getD "") = some doc)
    (hd : env.downloadSucceeds = true) (hc : env.converted = some md)
    (hu : env.markdownUrl = some mdUrl)
    (hsp : env.splitResult = .error ())
    (hce : env.completeUpdateError = none) :
    chunk_markdown tok env.splitResult = [] ∧
    (process_dropbox_file tok env db).1 = true ∧
    findFile (process_dropbox_file tok env db).2.files (m.file_id.getD "") =
      some (markCompleted mdUrl 0 env.now (markProcessing env.now doc)) ∧
    (markCompleted mdUrl 0 env.now
      (markProcessing env.now doc)).processing_status = "completed" ∧
    (markCompleted mdUrl 0 env.now (markProcessing env.now doc)).chunk_count = 0 ∧
    (process_dropbox_file tok env db).2.chunks = db.chunks := by
  have hout : process_dropbox_file tok env db =
      (true,
        { db with
          files := updateFile
            (updateFile db.files (m.file_id.getD "") (markProcessing env.now))
            (m.file_id.getD "") (markCompleted mdUrl 0 env.now) }) := by
    simp [process_dropbox_file, hp, hv, hs, hf, hd, hc, hu, hsp, hce,
      chunk_markdown]
  refine ⟨by rw [hsp]; rfl, by rw [hout], ?_, rfl, rfl, by rw [hout]⟩
  rw [hout]
  simp [findFile_updateFile, hf]

/-- Witness for C10: the all-success run of `envOk` with the splitter
raising ends completed with `chunk_count = 0`. -/
theorem split_exception_completes_empty_witness :
    chunk_markdown count_tokens_fallback envC10.splitResult = [] ∧
    (process_dropbox_file count_tokens_fallback envC10 exDb).1 = true ∧
    findFile (process_dropbox_file count_tokens_fallback envC10 exDb).2.files
        (exMsg.file_id.getD "") =
      some (markCompleted "markdown/64b0.md" 0 envC10.now
        (markProcessing envC10.now exDoc)) ∧
    (markCompleted "markdown/64b0.md" 0 envC10.now
      (markProcessing envC10.now exDoc)).processing_status = "completed" ∧
    (markCompleted "markdown/64b0.md" 0 envC10.now
      (markProcessing envC10.now exDoc)).chunk_count = 0 ∧
    (process_dropbox_file count_tokens_fallback envC10 exDb).2.chunks =
      exDb.chunks :=
  split_exception_completes_empty count_tokens_fallback envC10 exDb exMsg
    exDoc "# Title\n\nalpha text" "markdown/64b0.md" rfl (by decide) rfl
    (by decide) rfl rfl rfl rfl rfl

/-- Claim C3 (counterexample): the claim says a database error while
persisting chunks leaves `processing_status` unchanged at `"processing"`.
On a concrete run where `insert_many` raises, the exception reaches the
outer handler (worker/main.py 670-686), which sets the status to
`"failed"` — not `"processing"`. -/
theorem persistence_error_counterexample :
    (process_dropbox_file count_tokens_fallback envC3 exDb).1 = false ∧
    ((findFile (process_dropbox_file count_tokens_fallback envC3 exDb).2.files
        "64b0").map (·.processing_status)) = some "failed" ∧
    (((findFile (process_dropbox_file count_tokens_fallback envC3 exDb).2.files
        "64b0").map (·.processing_status)) == some "processing") = false := by
  decide

/-- Claim C3 (amended): a database error while persisting chunk records or
the completion update makes processing fail and the record is not marked
completed; but the status does not stay at `"processing"` — the outer
exception handler sets it to `"failed"` with
`processing_metadata.last_error` recorded (unless that write itself fails). -/
theorem persistence_error_marks_failed
    (tok : String → Nat) (env : WorkerEnv) (db : WorkerDb) (m : MsgData)
    (doc : FileDoc) (md mdUrl e : String)
    (hp : env.parseResult = .ok m) (hv : msgFieldsValid m = true)
    (hs : env.statusUpdateError = none)
    (hf : findFile db.files (m.file_id.getD "") = some doc)
    (hd : env.downloadSucceeds = true) (hc : env.converted = some md)
    (hu : env.markdownUrl = some mdUrl)
    (hch : (chunk_markdown tok env.splitResult).isEmpty = false)
    (hfw : env.failedUpdateError = false)
    (hp2 : (document_chunks (m.file_id.getD "") env.now
        (generate_embeddings env.hasOpenAIClient env.embedResp
          (chunk_markdown tok env.splitResult))).isEmpty = false ∧
        env.insertError = some e ∨
      env.insertError = none ∧ env.completeUpdateError = some e) :
    (process_dropbox_file tok env db).1 = false ∧
    findFile (process_dropbox_file tok env db).2.files (m.file_id.getD "") =
      some (markFailed e env.now (markProcessing env.now doc)) ∧
    (markFailed e env.now (markProcessing env.now doc)).processing_status =
      "failed" ∧
    (markFailed e env.now (markProcessing env.now doc)).last_error = some e := by
  rcases hp2 with ⟨hdc, hie⟩ | ⟨hie, hce⟩
  · have hout : process_dropbox_file tok env db =
        (false,
          { db with
            files := updateFile
              (updateFile db.files (m.file_id.getD "") (markProcessing env.now))
              (m.file_id.getD "") (markFailed e env.now) }) := by
      simp [process_dropbox_file, failPath, hp, hv, hs, hf, hd, hc, hu, hch,
        hdc, hie, hfw]
    refine ⟨by rw [hout], ?_, rfl, rfl⟩
    rw [hout]
    simp [findFile_updateFile, hf]
  · have hout : (process_dropbox_file tok env db).1 = false ∧
        (process_dropbox_file tok env db).2.files = updateFile
          (updateFile db.files (m.file_id.getD "") (markProcessing env.now))
          (m.file_id.getD "") (markFailed e env.now) := by
      by_cases hdc : (document_chunks (m.file_id.getD "") env.now
          (generate_embeddings env.hasOpenAIClient env.embedResp
            (chunk_markdown tok env.splitResult))).isEmpty = true
      · simp [process_dropbox_file, failPath, hp, hv, hs, hf, hd, hc, hu, hch,
          hdc, hie, hce, hfw]
      · simp only [Bool.not_eq_true] at hdc
        simp [process_dropbox_file, failPath, hp, hv, hs, hf, hd, hc, hu, hch,
          hdc, hie, hce, hfw]
    refine ⟨hout.1, ?_, rfl, rfl⟩
    rw [hout.2]
    simp [findFile_updateFile, hf]

/-- Witness for C3 (amended): the run where `insert_many` raises `db down`
ends failed with that message recorded as `last_error`. -/
theorem persistence_error_marks_failed_witness :
    (process_dropbox_file count_tokens_fallback envC3 exDb).1 = false ∧
    findFile (process_dropbox_file count_tokens_fallback envC3 exDb).2.files
        (exMsg.file_id.getD "") =
      some (markFailed "db down" envC3.now (markProcessing envC3.now exDoc)) ∧
    (markFailed "db down" envC3.now
      (markProcessing envC3.now exDoc)).processing_status = "failed" ∧
    (markFailed "db down" envC3.now
      (markProcessing envC3.now exDoc)).last_error = some "db down" :=
  persistence_error_marks_failed count_tokens_fallback envC3 exDb exMsg exDoc
    "# Title\n\nalpha text" "markdown/64b0.md" "db down" rfl (by decide) rfl
    (by decide) rfl rfl rfl (by decide) rfl (Or.inl ⟨by decide, rfl⟩)

/-- Claim C4 (counterexample): the claim says a whole-batch embedding
failure fails the file and the record is not marked completed.  On a
concrete run where the batch call raises, `generate_embeddings` swallows the
exception and returns the chunks without embeddings (worker/main.py
307-310); every chunk is then dropped as missing its embedding, and the
record is marked completed with `chunk_count = 0`, with success reported. -/
theorem embed_total_failure_counterexample :
    (process_dropbox_file count_tokens_fallback envC4 exDb).1 = true ∧
    ((findFile (process_dropbox_file count_tokens_fallback envC4 exDb).2.files
        "64b0").map (·.processing_status)) = some "completed" ∧
    ((findFile (process_dropbox_file count_tokens_fallback envC4 exDb).2.files
        "64b0").map (·.chunk_count)) = some 0 ∧
    (process_dropbox_file count_tokens_fallback envC4 exDb).2.chunks = [] := by
  decide

/-- `generate_embeddings` on a total batch failure attaches no embedding to
any chunk, so the `document_chunks` built from its result are empty. -/
theorem document_chunks_map_none (fid : String) (now : Nat)
    (chunks : List Chunk) :
    document_chunks fid now (chunks.map fun c => (c, none)) = [] := by
  simp [document_chunks, List.filterMap_map, Function.comp]

/-- Claim C4 (amended): when the batch embedding call fails as a whole, no
error escapes: all chunks come back without embeddings and are dropped from
the persisted set exactly like individually missing embeddings, so the file
is marked completed with `chunk_count = 0`, no chunks are persisted, and
processing reports success. -/
theorem embed_total_failure_completes_zero
    (tok : String → Nat) (env : WorkerEnv) (db : WorkerDb) (m : MsgData)
    (doc : FileDoc) (md mdUrl : String)
    (hp : env.parseResult = .ok m) (hv : msgFieldsValid m = true)
    (hs : env.statusUpdateError = none)
    (hf : findFile db.files (m.file_id.getD "") = some doc)
    (hd : env.downloadSucceeds = true) (hc : env.converted = some md)
    (hu : env.markdownUrl = some mdUrl)
    (hch : (chunk_markdown tok env.splitResult).isEmpty = false)
    (hcl : env.hasOpenAIClient = true)
    (her : env.embedResp = .error ())
    (hce : env.completeUpdateError = none) :
    (process_dropbox_file tok env db).1 = true ∧
    findFile (process_dropbox_file tok env db).2.files (m.file_id.getD "") =
      some (markCompleted mdUrl 0 env.now (markProcessing env.now doc)) ∧
    (markCompleted mdUrl 0 env.now
      (markProcessing env.now doc)).processing_status = "completed" ∧
    (markCompleted mdUrl 0 env.now (markProcessing env.now doc)).chunk_count = 0 ∧
    (process_dropbox_file tok env db).2.chunks = db.chunks := by
  have hgen : generate_embeddings env.hasOpenAIClient env.embedResp
      (chunk_markdown tok env.splitResult) =
      (chunk_markdown tok env.splitResult).map fun c => (c, none) := by
    simp [generate_embeddings, hcl, her, hch]
  have hout : process_dropbox_file tok env db =
      (true,
        { db with
          files := updateFile
            (updateFile db.files (m.file_id.getD "") (markProcessing env.now))
            (m.file_id.getD "") (markCompleted mdUrl 0 env.now) }) := by
    simp [process_dropbox_file, hp, hv, hs, hf, hd, hc, hu, hch, hce, hgen,
      document_chunks_map_none]
  refine ⟨by rw [hout], ?_, rfl, rfl, by rw [hout]⟩
  rw [hout]
  simp [findFile_updateFile, hf]

/-- Witness for C4 (amended): the run of `envOk` with the batch embedding
call failing ends completed with `chunk_count = 0` and success reported. -/
theorem embed_total_failure_completes_zero_witness :
    (process_dropbox_file count_tokens_fallback envC4 exDb).1 = true ∧
    findFile (process_dropbox_file count_tokens_fallback envC4 exDb).2.files
        (exMsg.file_id.getD "") =
      some (markCompleted "markdown/64b0.md" 0 envC4.now
        (markProcessing envC4.now exDoc)) ∧
    (markCompleted "markdown/64b0.md" 0 envC4.now
      (markProcessing envC4.now exDoc)).processing_status = "completed" ∧
    (markCompleted "markdown/64b0.md" 0 envC4.now
      (markProcessing envC4.now exDoc)).chunk_count = 0 ∧
    (process_dropbox_file count_tokens_fallback envC4 exDb).2.chunks =
      exDb.chunks :=
  embed_total_failure_completes_zero count_tokens_fallback envC4 exDb exMsg
    exDoc "# Title\n\nalpha text" "markdown/64b0.md" rfl (by decide) rfl
    (by decide) rfl rfl rfl (by decide) rfl rfl rfl

/-- Claim C7 (counterexample): the claim says every failure path except
"record not found" writes `processingMetadata.lastError` before the message
is resolved, including messages with missing required fields.  A message
with `blob_url` missing hits `return False` at worker/main.py line 562
without touching the database: the stored record still has no
`last_error`. -/
theorem last_error_counterexample :
    process_dropbox_file count_tokens_fallback envC7 exDb = (false, exDb) ∧
    ((findFile exDb.files "64b0").map (·.last_error)) = some none := by
  decide

/-- Claim C7 (amended): only failures raised after the record is marked
processing (download, conversion, markdown upload, chunk persistence,
completion update) write `last_error` before the message is resolved (and
only when the failure write itself succeeds); a message with an unparseable
body or with a missing required field returns failure without writing
anything, as does a failure of the dispatch update itself or a FileRecord
that cannot be found. -/
theorem last_error_amended :
    (∀ (tok : String → Nat) (env : WorkerEnv) (db : WorkerDb) (s : String),
      env.parseResult = .error s →
      process_dropbox_file tok env db = (false, db)) ∧
    (∀ (tok : String → Nat) (env : WorkerEnv) (db : WorkerDb) (m : MsgData),
      env.parseResult = .ok m → msgFieldsValid m = false →
      process_dropbox_file tok env db = (false, db)) ∧
    (∀ (tok : String → Nat) (env : WorkerEnv) (db : WorkerDb) (m : MsgData)
      (s : String),
      env.parseResult = .ok m → msgFieldsValid m = true →
      env.statusUpdateError = some s →
      process_dropbox_file tok env db = (false, db)) ∧
    (∀ (tok : String → Nat) (env : WorkerEnv) (db : WorkerDb) (m : MsgData),
      env.parseResult = .ok m → msgFieldsValid m = true →
      env.statusUpdateError = none →
      findFile db.files (m.file_id.getD "") = none →
      process_dropbox_file tok env db = (false, db)) ∧
    (∀ (tok : String → Nat) (env : WorkerEnv) (db : WorkerDb) (m : MsgData)
      (doc : FileDoc),
      env.parseResult = .ok m → msgFieldsValid m = true →
      env.statusUpdateError = none →
      findFile db.files (m.file_id.getD "") = some doc →
      env.downloadSucceeds = false → env.failedUpdateError = false →
      (process_dropbox_file tok env db).1 = false ∧
      findFile (process_dropbox_file tok env db).2.files (m.file_id.getD "") =
        some (markFailed "Failed to download file after retries" env.now
          (markProcessing env.now doc)) ∧
      (markFailed "Failed to download file after retries" env.now
        (markProcessing env.now doc)).last_error =
          some "Failed to download file after retries") ∧
    (∀ (tok : String → Nat) (env : WorkerEnv) (db : WorkerDb) (m : MsgData)
      (doc : FileDoc),
      env.parseResult = .ok m → msgFieldsValid m = true →
      env.statusUpdateError = none →
      findFile db.files (m.file_id.getD "") = some doc →
      env.downloadSucceeds = true → env.converted = none →
      env.failedUpdateError = false →
      (process_dropbox_file tok env db).1 = false ∧
      findFile (process_dropbox_file tok env db).2.files (m.file_id.getD "") =
        some (markFailed "Failed to convert to markdown" env.now
          (markProcessing env.now doc)) ∧
      (markFailed "Failed to convert to markdown" env.now
        (markProcessing env.now doc)).last_error =
          some "Failed to convert to markdown") ∧
    (∀ (tok : String → Nat) (env : WorkerEnv) (db : WorkerDb) (m : MsgData)
      (doc : FileDoc) (md : String),
      env.parseResult = .ok m → msgFieldsValid m = true →
      env.statusUpdateError = none →
      findFile db.files (m.file_id.getD "") = some doc →
      env.downloadSucceeds = true → env.converted = some md →
      env.markdownUrl = none → env.failedUpdateError = false →
      (process_dropbox_file tok env db).1 = false ∧
      findFile (process_dropbox_file tok env db).2.files (m.file_id.getD "") =
        some (markFailed "Failed to upload markdown to blob storage" env.now
          (markProcessing env.now doc)) ∧
      (markFailed "Failed to upload markdown to blob storage" env.now
        (markProcessing env.now doc)).last_error =
          some "Failed to upload markdown to blob storage") ∧
    (∀ (tok : String → Nat) (env : WorkerEnv) (db : WorkerDb) (m : MsgData)
      (doc : FileDoc) (md mdUrl e : String),
      env.parseResult = .ok m → msgFieldsValid m = true →
      env.statusUpdateError = none →
      findFile db.files (m.file_id.getD "") = some doc →
      env.downloadSucceeds = true → env.converted = some md →
      env.markdownUrl = some mdUrl →
      (chunk_markdown tok env.splitResult).isEmpty = false →
      (document_chunks (m.file_id.getD "") env.now
        (generate_embeddings env.hasOpenAIClient env.embedResp
          (chunk_markdown tok env.splitResult))).isEmpty = false →
      env.insertError = some e → env.failedUpdateError = false →
      (process_dropbox_file tok env db).1 = false ∧
      findFile (process_dropbox_file tok env db).2.files (m.file_id.getD "") =
        some (markFailed e env.now (markProcessing env.now doc)) ∧
      (markFailed e env.now (markProcessing env.now doc)).last_error = some e) ∧
    (∀ (tok : String → Nat) (env : WorkerEnv) (db : WorkerDb) (m : MsgData)
      (doc : FileDoc) (md mdUrl e : String),
      env.parseResult = .ok m → msgFieldsValid m = true →
      env.statusUpdateError = none →
      findFile db.files (m.file_id.getD "") = some doc →
      env.downloadSucceeds = true → env.converted = some md →
      env.markdownUrl = some mdUrl →
      (chunk_markdown tok env.splitResult).isEmpty = true →
      env.completeUpdateError = some e → env.failedUpdateError = false →
      (process_dropbox_file tok env db).1 = false ∧
      findFile (process_dropbox_file tok env db).2.files (m.file_id.getD "") =
        some (markFailed e env.now (markProcessing env.now doc)) ∧
      (markFailed e env.now (markProcessing env.now doc)).last_error = some e) ∧
    (∀ (tok : String → Nat) (env : WorkerEnv) (db : WorkerDb) (m : MsgData)
      (doc : FileDoc) (md mdUrl e : String),
      env.parseResult = .ok m → msgFieldsValid m = true →
      env.statusUpdateError = none →
      findFile db.files (m.file_id.getD "") = some doc →
      env.downloadSucceeds = true → env.converted = some md →
      env.markdownUrl = some mdUrl →
      (chunk_markdown tok env.splitResult).isEmpty = false →
      env.insertError = none → env.completeUpdateError = some e →
      env.failedUpdateError = false →
      (process_dropbox_file tok env db).1 = false ∧
      findFile (process_dropbox_file tok env db).2.files (m.file_id.getD "") =
        some (markFailed e env.now (markProcessing env.now doc)) ∧
      (markFailed e env.now (markProcessing env.now doc)).last_error = some e) := by
  refine ⟨fun tok env db s hp => ?_, fun tok env db m hp hv => ?_,
    fun tok env db m s hp hv hs => ?_, fun tok env db m hp hv hs hf => ?_,
    fun tok env db m doc hp hv hs hf hd hfw => ?_,
    fun tok env db m doc hp hv hs hf hd hc hfw => ?_,
    fun tok env db m doc md hp hv hs hf hd hc hu hfw => ?_,
    fun tok env db m doc md mdUrl e hp hv hs hf hd hc hu hch hdc hie hfw => ?_,
    fun tok env db m doc md mdUrl e hp hv hs hf hd hc hu hch hce hfw => ?_,
    fun tok env db m doc md mdUrl e hp hv hs hf hd hc hu hch hie hce hfw => ?_⟩
  · simp [process_dropbox_file, hp]
  · simp [process_dropbox_file, hp, hv]
  · simp [process_dropbox_file, hp, hv, hs]
  · simp [process_dropbox_file, hp, hv, hs, hf]
  · have hout : process_dropbox_file tok env db =
        (false,
          { db with
            files := updateFile
              (updateFile db.files (m.file_id.getD "") (markProcessing env.now))
              (m.file_id.getD "")
              (markFailed "Failed to download file after retries" env.now) }) := by
      simp [process_dropbox_file, failPath, hp, hv, hs, hf, hd, hfw]
    refine ⟨by rw [hout], ?_, rfl⟩
    rw [hout]
    simp [findFile_updateFile, hf]
  · have hout : process_dropbox_file tok env db =
        (false,
          { db with
            files := updateFile
              (updateFile db.files (m.file_id.getD "") (markProcessing env.now))
              (m.file_id.getD "")
              (markFailed "Failed to convert to markdown" env.now) }) := by
      simp [process_dropbox_file, failPath, hp, hv, hs, hf, hd, hc, hfw]
    refine ⟨by rw [hout], ?_, rfl⟩
    rw [hout]
    simp [findFile_updateFile, hf]
  · have hout : process_dropbox_file tok env db =
        (false,
          { db with
            files := updateFile
              (updateFile db.files (m.file_id.getD "") (markProcessing env.now))
              (m.file_id.getD "")
              (markFailed "Failed to upload markdown to blob storage" env.now) }) := by
      simp [process_dropbox_file, failPath, hp, hv, hs, hf, hd, hc, hu, hfw]
    refine ⟨by rw [hout], ?_, rfl⟩
    rw [hout]
    simp [findFile_updateFile, hf]
  · have hout : process_dropbox_file tok env db =
        (false,
          { db with
            files := updateFile
              (updateFile db.files (m.file_id.getD "") (markProcessing env.now))
              (m.file_id.getD "") (markFailed e env.now) }) := by
      simp [process_dropbox_file, failPath, hp, hv, hs, hf, hd, hc, hu, hch,
        hdc, hie, hfw]
    refine ⟨by rw [hout], ?_, rfl⟩
    rw [hout]
    simp [findFile_updateFile, hf]
  · have hout : process_dropbox_file tok env db =
        (false,
          { db with
            files := updateFile
              (updateFile db.files (m.file_id.getD "") (markProcessing env.now))
              (m.file_id.getD "") (markFailed e env.now) }) := by
      simp [process_dropbox_file, failPath, hp, hv, hs, hf, hd, hc, hu, hch,
        hce, hfw]
    refine ⟨by rw [hout], ?_, rfl⟩
    rw [hout]
    simp [findFile_updateFile, hf]
  · have hout : (process_dropbox_file tok env db).1 = false ∧
        (process_dropbox_file tok env db).2.files = updateFile
          (updateFile db.files (m.file_id.getD "") (markProcessing env.now))
          (m.file_id.getD "") (markFailed e env.now) := by
      by_cases hdc : (document_chunks (m.file_id.getD "") env.now
          (generate_embeddings env.hasOpenAIClient env.embedResp
            (chunk_markdown tok env.splitResult))).isEmpty = true
      · simp [process_dropbox_file, failPath, hp, hv, hs, hf, hd, hc, hu, hch,
          hdc, hie, hce, hfw]
      · simp only [Bool.not_eq_true] at hdc
        simp [process_dropbox_file, failPath, hp, hv, hs, hf, hd, hc, hu, hch,
          hdc, hie, hce, hfw]
    refine ⟨hout.1, ?_, rfl⟩
    rw [hout.2]
    simp [findFile_updateFile, hf]

/-- Witness for C7 (amended): an unparseable body, a missing `blob_url`, a
failing dispatch update and a missing FileRecord all fail with the database
untouched; download, conversion, markdown-upload, chunk-insert and both
completion-update failures end failed with `last_error` recorded. -/
theorem last_error_amended_witness :
    process_dropbox_file count_tokens_fallback envParseErr exDb =
      (false, exDb) ∧
    process_dropbox_file count_tokens_fallback envC7 exDb = (false, exDb) ∧
    process_dropbox_file count_tokens_fallback envStatusErr exDb =
      (false, exDb) ∧
    process_dropbox_file count_tokens_fallback envNotFound exDb =
      (false, exDb) ∧
    ((process_dropbox_file count_tokens_fallback envDlFail exDb).1 = false ∧
      findFile (process_dropbox_file count_tokens_fallback
          envDlFail exDb).2.files (exMsg.file_id.getD "") =
        some (markFailed "Failed to download file after retries" envDlFail.now
          (markProcessing envDlFail.now exDoc))) ∧
    ((process_dropbox_file count_tokens_fallback envConvFail exDb).1 = false ∧
      findFile (process_dropbox_file count_tokens_fallback
          envConvFail exDb).2.files (exMsg.file_id.getD "") =
        some (markFailed "Failed to convert to markdown" envConvFail.now
          (markProcessing envConvFail.now exDoc))) ∧
    ((process_dropbox_file count_tokens_fallback envUpFail exDb).1 = false ∧
      findFile (process_dropbox_file count_tokens_fallback
          envUpFail exDb).2.files (exMsg.file_id.getD "") =
        some (markFailed "Failed to upload markdown to blob storage"
          envUpFail.now (markProcessing envUpFail.now exDoc))) ∧
    ((process_dropbox_file count_tokens_fallback envC3 exDb).1 = false ∧
      findFile (process_dropbox_file count_tokens_fallback
          envC3 exDb).2.files (exMsg.file_id.getD "") =
        some (markFailed "db down" envC3.now
          (markProcessing envC3.now exDoc))) ∧
    ((process_dropbox_file count_tokens_fallback envEmptyCeFail exDb).1 =
        false ∧
      findFile (process_dropbox_file count_tokens_fallback
          envEmptyCeFail exDb).2.files (exMsg.file_id.getD "") =
        some (markFailed "write concern error" envEmptyCeFail.now
          (markProcessing envEmptyCeFail.now exDoc))) ∧
    ((process_dropbox_file count_tokens_fallback envCeFail exDb).1 = false ∧
      findFile (process_dropbox_file count_tokens_fallback
          envCeFail exDb).2.files (exMsg.file_id.getD "") =
        some (markFailed "write concern error" envCeFail.now
          (markProcessing envCeFail.now exDoc))) :=
  ⟨last_error_amended.1 count_tokens_fallback envParseErr exDb
      "Expecting value" rfl,
   last_error_amended.2.1 count_tokens_fallback envC7 exDb msgNoBlob rfl
      (by decide),
   last_error_amended.2.2.1 count_tokens_fallback envStatusErr exDb exMsg
      "connection reset" rfl (by decide) rfl,
   last_error_amended.2.2.2.1 count_tokens_fallback envNotFound exDb msgOther
      rfl (by decide) rfl (by decide),
   ⟨(last_error_amended.2.2.2.2.1 count_tokens_fallback envDlFail exDb exMsg
       exDoc rfl (by decide) rfl (by decide) rfl rfl).1,
    (last_error_amended.2.2.2.2.1 count_tokens_fallback envDlFail exDb exMsg
       exDoc rfl (by decide) rfl (by decide) rfl rfl).2.1⟩,
   ⟨(last_error_amended.2.2.2.2.2.1 count_tokens_fallback envConvFail exDb
       exMsg exDoc rfl (by decide) rfl (by decide) rfl rfl rfl).1,
    (last_error_amended.2.2.2.2.2.1 count_tokens_fallback envConvFail exDb
       exMsg exDoc rfl (by decide) rfl (by decide) rfl rfl rfl).2.1⟩,
   ⟨(last_error_amended.2.2.2.2.2.2.1 count_tokens_fallback envUpFail exDb
       exMsg exDoc "# Title\n\nalpha text" rfl (by decide) rfl (by decide)
       rfl rfl rfl rfl).1,
    (last_error_amended.2.2.2.2.2.2.1 count_tokens_fallback envUpFail exDb
       exMsg exDoc "# Title\n\nalpha text" rfl (by decide) rfl (by decide)
       rfl rfl rfl rfl).2.1⟩,
   ⟨(last_error_amended.2.2.2.2.2.2.2.1 count_tokens_fallback envC3 exDb
       exMsg exDoc "# Title\n\nalpha text" "markdown/64b0.md" "db down" rfl
       (by decide) rfl (by decide) rfl rfl rfl (by decide) (by decide) rfl
       rfl).1,
    (last_error_amended.2.2.2.2.2.2.2.1 count_tokens_fallback envC3 exDb
       exMsg exDoc "# Title\n\nalpha text" "markdown/64b0.md" "db down" rfl
       (by decide) rfl (by decide) rfl rfl rfl (by decide) (by decide) rfl
       rfl).2.1⟩,
   ⟨(last_error_amended.2.2.2.2.2.2.2.2.1 count_tokens_fallback envEmptyCeFail
       exDb exMsg exDoc "# Title\n\nalpha text" "markdown/64b0.md"
       "write concern error" rfl (by decide) rfl (by decide) rfl rfl rfl
       (by decide) rfl rfl).1,
    (last_error_amended.2.2.2.2.2.2.2.2.1 count_tokens_fallback envEmptyCeFail
       exDb exMsg exDoc "# Title\n\nalpha text" "markdown/64b0.md"
       "write concern error" rfl (by decide) rfl (by decide) rfl rfl rfl
       (by decide) rfl rfl).2.1⟩,
   ⟨(last_error_amended.2.2.2.2.2.2.2.2.2 count_tokens_fallback envCeFail
       exDb exMsg exDoc "# Title\n\nalpha text" "markdown/64b0.md"
       "write concern error" rfl (by decide) rfl (by decide) rfl rfl rfl
       (by decide) rfl rfl rfl).1,
    (last_error_amended.2.2.2.2.2.2.2.2.2 count_tokens_fallback envCeFail
       exDb exMsg exDoc "# Title\n\nalpha text" "markdown/64b0.md"
       "write concern error" rfl (by decide) rfl (by decide) rfl rfl rfl
       (by decide) rfl rfl rfl).2.1⟩⟩

/-- Claim C2 (counterexample): the claim says a successfully completed file
with retained chunks has `chunk_index` values exactly `{0, ..., chunk_count-1}`.
On a run whose splitter output contains a whitespace-only middle piece, the
piece is dropped but its `enumerate` index is kept by the survivors
(worker/main.py 235-238), so the file completes with `chunk_count = 2` and
persisted indices `{0, 2}`, which is not `{0, 1}`. -/
theorem chunk_contiguity_counterexample :
    (process_dropbox_file count_tokens_fallback envOk exDb).1 = true ∧
    ((findFile (process_dropbox_file count_tokens_fallback envOk exDb).2.files
        "64b0").map (·.processing_status)) = some "completed" ∧
    ((findFile (process_dropbox_file count_tokens_fallback envOk exDb).2.files
        "64b0").map (·.chunk_count)) = some 2 ∧
    ((process_dropbox_file count_tokens_fallback envOk exDb).2.chunks.map
        (·.chunk_index)) = [0, 2] ∧
    (([0, 2] : List Nat) == List.range 2) = false := by
  decide

/-- The `chunk_index` values `chunk_markdown` produces from pieces enumerated
from `n` form a sublist of `n, n+1, ...`: each survivor keeps its `enumerate`
index. -/
theorem chunk_indices_sublist (tok : String → Nat) :
    ∀ (ts : List String) (n : Nat),
      (((List.enumFrom n ts).filterMap (chunk_of_piece tok)).map
        (·.chunk_index)).Sublist (List.range' n ts.length) := by
  intro ts
  induction ts with
  | nil => intro n; simp
  | cons a ts ih =>
    intro n
    rw [show List.enumFrom n (a :: ts) = (n, a) :: List.enumFrom (n + 1) ts
      from rfl]
    cases h : chunk_of_piece tok (n, a) with
    | none =>
      rw [List.filterMap_cons_none h, List.length_cons, List.range'_succ]
      exact (ih (n + 1)).cons _
    | some c =>
      have hc : c.chunk_index = n := by
        simp only [chunk_of_piece] at h
        split at h
        · exact absurd h (by simp)
        · cases h
          rfl
      rw [List.filterMap_cons_some h, List.length_cons,
        List.range'_succ, List.map_cons, hc]
      exact (ih (n + 1)).cons₂ _

/-- Mapping after a `filterMap` that preserves a projection yields a sublist
of mapping the projection over the original list. -/
theorem filterMap_map_sublist {α β γ : Type _} (l : List α) (F : α → Option β)
    (h : β → γ) (k : α → γ) (H : ∀ a b, F a = some b → h b = k a) :
    ((l.filterMap F).map h).Sublist (l.map k) := by
  induction l with
  | nil => simp
  | cons a l ih =>
    cases hF : F a with
    | none =>
      rw [List.filterMap_cons_none hF, List.map_cons]
      exact ih.cons _
    | some b =>
      rw [List.filterMap_cons_some hF, List.map_cons, List.map_cons,
        H a b hF]
      exact ih.cons₂ _

/-- When every piece is non-empty after stripping, `chunk_markdown` keeps
them all: the indices are exactly `n, n+1, ...` and the counts agree. -/
theorem chunk_indices_all_kept (tok : String → Nat) :
    ∀ (ts : List String), (∀ t ∈ ts, pyStrip t ≠ "") → ∀ (n : Nat),
      (((List.enumFrom n ts).filterMap (chunk_of_piece tok)).map
        (·.chunk_index)) = List.range' n ts.length := by
  intro ts
  induction ts with
  | nil => intro _ n; simp
  | cons a ts ih =>
    intro hall n
    have ha : pyStrip a ≠ "" := hall a (List.mem_cons_self a ts)
    have h : chunk_of_piece tok (n, a) = some
        { chunk_index := n, content := pyStrip a,
          chunk_type := classify_chunk (pyStrip a),
          char_count := (pyStrip a).length,
          token_count := tok (pyStrip a) } := by
      simp [chunk_of_piece, ha]
    rw [show List.enumFrom n (a :: ts) = (n, a) :: List.enumFrom (n + 1) ts
      from rfl, List.filterMap_cons_some h, List.length_cons,
      List.range'_succ, List.map_cons,
      ih (fun t ht => hall t (List.mem_cons_of_mem a ht)) (n + 1)]

/-- When the embedding response covers every chunk, `document_chunks` keeps
them all in order: its indices are the chunk indices. -/
theorem document_chunks_all_embedded (fid : String) (now : Nat)
    (data : List (List Int)) :
    ∀ (cs : List Chunk) (n : Nat), n + cs.length ≤ data.length →
      ((document_chunks fid now
        ((List.enumFrom n cs).map fun ic => (ic.2, data.get? ic.1))).map
          (·.chunk_index)) = cs.map (·.chunk_index) := by
  intro cs
  induction cs with
  | nil => intro n _; simp [document_chunks]
  | cons c cs ih =>
    intro n hn
    have hlt : n < data.length := by
      simp only [List.length_cons] at hn
      omega
    have hget : data.get? n = some (data.get ⟨n, hlt⟩) :=
      List.get?_eq_get hlt
    have hstep : document_chunks fid now
        ((List.enumFrom n (c :: cs)).map fun ic => (ic.2, data.get? ic.1)) =
        mkChunkDoc fid now c (data.get ⟨n, hlt⟩) ::
          document_chunks fid now
            ((List.enumFrom (n + 1) cs).map fun ic => (ic.2, data.get? ic.1)) := by
      have he : ((List.enumFrom n (c :: cs)).map fun ic => (ic.2, data.get? ic.1)) =
          (c, data.get? n) ::
            ((List.enumFrom (n + 1) cs).map fun ic => (ic.2, data.get? ic.1)) :=
        rfl
      rw [he, hget]
      rfl
    rw [hstep, List.map_cons, List.map_cons,
      ih (n + 1) (by simp only [List.length_cons] at hn; omega)]
    rfl

/-- Claim C2 (amended): on a successful completion, `chunk_count` equals the
number of persisted ChunkRecords and their `chunk_index` values are pairwise
distinct (no duplicates), but they need not be contiguous: dropped
empty-after-strip pieces keep their `enumerate` index out of the sequence.
The set is exactly `{0, ..., chunk_count - 1}` when every split piece is
non-empty after stripping and the embedding response covers every chunk. -/
theorem chunk_indices_amended
    (tok : String → Nat) (env : WorkerEnv) (db : WorkerDb) (m : MsgData)
    (doc : FileDoc) (md mdUrl : String) (ts : List String)
    (data : List (List Int))
    (hp : env.parseResult = .ok m) (hv : msgFieldsValid m = true)
    (hs : env.statusUpdateError = none)
    (hf : findFile db.files (m.file_id.getD "") = some doc)
    (hd : env.downloadSucceeds = true) (hc : env.converted = some md)
    (hu : env.markdownUrl = some mdUrl)
    (hsp : env.splitResult = .ok ts)
    (hcl : env.hasOpenAIClient = true)
    (her : env.embedResp = .ok data)
    (hch : (chunk_markdown tok env.splitResult).isEmpty = false)
    (hie : env.insertError = none) (hce : env.completeUpdateError = none) :
    (process_dropbox_file tok env db).1 = true ∧
    findFile (process_dropbox_file tok env db).2.files (m.file_id.getD "") =
      some (markCompleted mdUrl
        (retained_chunks tok env (m.file_id.getD "")).length env.now
        (markProcessing env.now doc)) ∧
    (process_dropbox_file tok env db).2.chunks =
      db.chunks ++ retained_chunks tok env (m.file_id.getD "") ∧
    ((retained_chunks tok env (m.file_id.getD "")).map (·.chunk_index)).Nodup ∧
    ((∀ t ∈ ts, pyStrip t ≠ "") → ts.length ≤ data.length →
      (retained_chunks tok env (m.file_id.getD "")).map (·.chunk_index) =
        List.range (retained_chunks tok env (m.file_id.getD "")).length) := by
  have hgen : generate_embeddings env.hasOpenAIClient env.embedResp
      (chunk_markdown tok env.splitResult) =
      (chunk_markdown tok env.splitResult).enum.map
        fun ic => (ic.2, data.get? ic.1) := by
    simp [generate_embeddings, hcl, her, hch]
  have hck : chunk_markdown tok env.splitResult =
      (List.enumFrom 0 ts).filterMap (chunk_of_piece tok) := by
    rw [hsp]
    rfl
  have key : (process_dropbox_file tok env db).1 = true ∧
      (process_dropbox_file tok env db).2.files =
        updateFile
          (updateFile db.files (m.file_id.getD "") (markProcessing env.now))
          (m.file_id.getD "")
          (markCompleted mdUrl
            (retained_chunks tok env (m.file_id.getD "")).length env.now) ∧
      (process_dropbox_file tok env db).2.chunks =
        db.chunks ++ retained_chunks tok env (m.file_id.getD "") := by
    by_cases hdc : (retained_chunks tok env (m.file_id.getD "")).isEmpty
    · have hdce : retained_chunks tok env (m.file_id.getD "") = [] :=
        List.isEmpty_iff.mp hdc
      simp only [retained_chunks] at hdce
      refine ⟨?_, ?_, ?_⟩ <;>
        simp [process_dropbox_file, retained_chunks, hp, hv, hs, hf, hd, hc,
          hu, hch, hie, hce, hdce]
    · simp only [Bool.not_eq_true] at hdc
      simp only [retained_chunks] at hdc
      refine ⟨?_, ?_, ?_⟩ <;>
        simp [process_dropbox_file, retained_chunks, hp, hv, hs, hf, hd, hc,
          hu, hch, hie, hce, hdc]
  have hsub1 : ((retained_chunks tok env (m.file_id.getD "")).map
      (·.chunk_index)).Sublist
      ((chunk_markdown tok env.splitResult).map (·.chunk_index)) := by
    simp only [retained_chunks, hgen, document_chunks, List.filterMap_map]
    have H : ∀ (ic : Nat × Chunk) (b : ChunkDoc),
        ((fun ce : Chunk × Option (List Int) =>
            Option.map (fun e => mkChunkDoc (m.file_id.getD "")
              env.now ce.1 e) ce.2) ∘
          fun ic : Nat × Chunk => (ic.2, data.get? ic.1)) ic = some b →
        b.chunk_index = ic.2.chunk_index := by
      intro ic b hb
      simp only [Function.comp, Option.map_eq_some'] at hb
      obtain ⟨e, _, hbe⟩ := hb
      rw [← hbe]
      rfl
    have := filterMap_map_sublist (chunk_markdown tok env.splitResult).enum
      _ (fun b : ChunkDoc => b.chunk_index)
      (fun ic : Nat × Chunk => ic.2.chunk_index) H
    have hmm : (chunk_markdown tok env.splitResult).enum.map
        (fun ic : Nat × Chunk => ic.2.chunk_index) =
        (chunk_markdown tok env.splitResult).map (·.chunk_index) := by
      rw [show ((fun ic : Nat × Chunk => ic.2.chunk_index)) =
        ((fun c : Chunk => c.chunk_index) ∘ Prod.snd) from rfl,
        ← List.map_map, List.enum_map_snd]
    rwa [hmm] at this
  have hsub2 : ((chunk_markdown tok env.splitResult).map
      (·.chunk_index)).Sublist (List.range ts.length) := by
    rw [hck, List.range_eq_range']
    exact chunk_indices_sublist tok ts 0
  refine ⟨key.1, ?_, key.2.2, ?_, ?_⟩
  · rw [key.2.1]
    simp [findFile_updateFile, hf]
  · exact (hsub1.trans hsub2).nodup (List.nodup_range _)
  · intro hall hlen
    have hcsi : (chunk_markdown tok env.splitResult).map (·.chunk_index) =
        List.range ts.length := by
      rw [hck, List.range_eq_range']
      exact chunk_indices_all_kept tok ts hall 0
    have hcsl : (chunk_markdown tok env.splitResult).length = ts.length := by
      have := congrArg List.length hcsi
      simpa using this
    have hdci : (retained_chunks tok env (m.file_id.getD "")).map
        (·.chunk_index) =
        (chunk_markdown tok env.splitResult).map (·.chunk_index) := by
      simp only [retained_chunks, hgen]
      exact document_chunks_all_embedded (m.file_id.getD "") env.now data
        (chunk_markdown tok env.splitResult) 0 (by omega)
    have hdcl : (retained_chunks tok env (m.file_id.getD "")).length =
        ts.length := by
      have := congrArg List.length hdci
      simpa [hcsl] using this
    rw [hdci, hcsi, hdcl]

/-- Witness for C2 (amended): the `envOk` run completes with two retained
chunks, `chunk_count = 2`, and duplicate-free indices. -/
theorem chunk_indices_amended_witness :
    (process_dropbox_file count_tokens_fallback envOk exDb).1 = true ∧
    findFile (process_dropbox_file count_tokens_fallback envOk exDb).2.files
        (exMsg.file_id.getD "") =
      some (markCompleted "markdown/64b0.md"
        (retained_chunks count_tokens_fallback envOk
          (exMsg.file_id.getD "")).length envOk.now
        (markProcessing envOk.now exDoc)) ∧
    (process_dropbox_file count_tokens_fallback envOk exDb).2.chunks =
      exDb.chunks ++ retained_chunks count_tokens_fallback envOk
        (exMsg.file_id.getD "") ∧
    ((retained_chunks count_tokens_fallback envOk
        (exMsg.file_id.getD "")).map (·.chunk_index)).Nodup ∧
    ((∀ t ∈ ["alpha text", "   ", "beta text"], pyStrip t ≠ "") →
      (["alpha text", "   ", "beta text"] : List String).length ≤
        ([[1], [2]] : List (List Int)).length →
      (retained_chunks count_tokens_fallback envOk
          (exMsg.file_id.getD "")).map (·.chunk_index) =
        List.range (retained_chunks count_tokens_fallback envOk
          (exMsg.file_id.getD "")).length) :=
  chunk_indices_amended count_tokens_fallback envOk exDb exMsg exDoc
    "# Title\n\nalpha text" "markdown/64b0.md"
    ["alpha text", "   ", "beta text"] [[1], [2]] rfl (by decide) rfl
    (by decide) rfl rfl rfl rfl rfl rfl (by decide) rfl rfl

end DropboxMongo
